import Mathlib

/- Verification of the MSSQL DML mutation-backup synthesizer of this
   repository.  The repository ships the synthesizer's test fixtures
   (src/unnamed/part_000) but not the synthesizer itself, so the core is
   modelled from the specification and validated, output string for output
   string, against every fixture in that file. -/

namespace TsqlBackup

/-- Modelled from the spec: a source position, line 1-indexed and column
0-indexed (spec section 3, "SourceStatement"). -/
structure Position where
  line : Nat
  column : Nat
  deriving DecidableEq

/-- Modelled from the spec: the statement kind tag delivered by the external
SQL front-end (DELETE | UPDATE | OTHER). -/
inductive StmtKind where
  | delete
  | update
  | other
  deriving DecidableEq

/-- Modelled from the spec: a table reference of a FROM/JOIN clause, with
nullable catalog (null resolves to the session's current database), nullable
schema (null defaults to dbo), table name and optional alias. -/
structure TableReference where
  catalog : Option String
  schema : Option String
  table : String
  aliasName : Option String
  deriving DecidableEq

/-- Modelled from the spec: an explicit FROM/JOIN clause — its verbatim source
text (including the FROM keyword) together with every table reference named in
it, from which the per-statement alias bindings are built. -/
structure FromClause where
  raw : String
  tables : List TableReference
  deriving DecidableEq

/-- Modelled from the spec: one parsed statement as delivered by the external
front-end: raw text, kind, target identifier (the identifier written directly
after DELETE/UPDATE; absent on malformed input), optional FROM/JOIN clause,
optional verbatim WHERE predicate text, the verbatim trailing source bytes
after the last clause token up to and including the statement's terminating
semicolon, and the first-token position. -/
structure SourceStatement where
  text : String
  kind : StmtKind
  target : Option String
  fromClause : Option FromClause
  whereText : Option String
  tailText : String
  startPos : Position
  deriving DecidableEq

/-- Modelled from the spec: the output of the Mutation Target Resolver — the
physical (catalog, schema, table) triple being mutated, the projection
identifier, the FROM clause text to reuse and the WHERE predicate text. -/
structure ResolvedMutationTarget where
  catalog : String
  schema : String
  table : String
  projection : String
  fromText : String
  whereText : Option String
  deriving DecidableEq

/-- Modelled from the spec: the analysis error kinds of section 7. -/
inductive AnalysisError where
  | unresolvedTarget
  | malformedStatement
  deriving DecidableEq

/-- Modelled from the spec: one produced backup record (section 6), with the
backup index kept explicit next to the backup table name that embeds it. -/
structure BackupResult where
  statement : String
  sourceSchema : String
  sourceTableName : String
  targetTableName : String
  index : Nat
  startPosition : Position
  endPosition : Position
  deriving DecidableEq

/-- Double-quote one identifier, as the synthesizer renders identifiers. -/
def quoteIdent (x : String) : String := "\"" ++ x ++ "\""

/-- Fully-qualified, individually double-quoted three-part name. -/
def tripleQuoted (c sch t : String) : String :=
  quoteIdent c ++ "." ++ quoteIdent sch ++ "." ++ quoteIdent t

/-- Eligibility: only DELETE and UPDATE statements get a backup entry. -/
def eligible : StmtKind → Bool
  | .delete => true
  | .update => true
  | .other => false

/-- Number of eligible statements of a batch. -/
def countEligible (l : List SourceStatement) : Nat :=
  l.countP (fun s => eligible s.kind)

/-- Whether the statement's target identifier matches an alias bound in its
own FROM/JOIN clause. -/
def targetIsAlias (s : SourceStatement) : Bool :=
  match s.target, s.fromClause with
  | some t, some fc => (fc.tables.find? (fun tr => tr.aliasName == some t)).isSome
  | _, _ => false

/-- Modelled from the spec: the Mutation Target Resolver (section 4.1).  The
target identifier is looked up first among the aliases bound in the
statement's FROM/JOIN clause (projection = the alias), then among the bare
(unaliased) table names of that clause (projection = the fully-qualified
triple); with no FROM/JOIN clause the target identifier is itself the table
and a bare `FROM table` clause is synthesized.  Catalog defaults to the
session's current catalog and schema to dbo. -/
def resolveTarget (cat : String) (s : SourceStatement) :
    Except AnalysisError ResolvedMutationTarget :=
  match s.target with
  | none => .error .malformedStatement
  | some tgt =>
    match s.fromClause with
    | none =>
      .ok { catalog := cat, schema := "dbo", table := tgt,
            projection := tripleQuoted cat "dbo" tgt,
            fromText := "FROM " ++ tgt, whereText := s.whereText }
    | some fc =>
      match fc.tables.find? (fun tr => tr.aliasName == some tgt) with
      | some tr =>
        .ok { catalog := tr.catalog.getD cat, schema := tr.schema.getD "dbo",
              table := tr.table, projection := quoteIdent tgt,
              fromText := fc.raw, whereText := s.whereText }
      | none =>
        match fc.tables.find? (fun tr => tr.table == tgt && tr.aliasName.isNone) with
        | some tr =>
          .ok { catalog := tr.catalog.getD cat, schema := tr.schema.getD "dbo",
                table := tr.table,
                projection :=
                  tripleQuoted (tr.catalog.getD cat) (tr.schema.getD "dbo") tr.table,
                fromText := fc.raw, whereText := s.whereText }
        | none => .error .unresolvedTarget

/-- WHERE part of the synthesized statement: the verbatim predicate when the
source statement has one, empty otherwise. -/
def wherePart : Option String → String
  | some w => " WHERE " ++ w
  | none => ""

/-- Modelled from the spec: the Backup Statement Synthesizer (section 4.3),
with the statement terminator observed throughout the fixtures: a non-last
statement reuses its own verbatim trailing bytes (which end in its
semicolon), the last statement of the stream gets a newline and a fresh
semicolon. -/
def synthesize (r : ResolvedMutationTarget) (idx : Nat) (tl : String)
    (isLast : Bool) : String :=
  "SELECT " ++ r.projection ++ ".* INTO \"backupDB\".\"" ++ r.schema ++
    "\".\"rollback_" ++ toString idx ++ "_" ++ r.table ++ "\" " ++
    r.fromText ++ wherePart r.whereText ++ (if isLast then "\n;" else tl)

/-- Length of the last physical line of a character list. -/
def lastLineLen (cs : List Char) : Nat :=
  (cs.reverse.takeWhile (fun c => c != '\n')).length

/-- Modelled from the spec: position of the final character of a statement's
own text, computed per physical line (section 4.4): the line advances by the
number of newlines of the text, the column is relative to the final
character's own line. -/
def finalCharPos (start : Position) (text : String) : Position :=
  let cs := text.data
  let nl := cs.count '\n'
  { line := start.line + nl,
    column := (if nl = 0 then start.column else 0) + lastLineLen cs - 1 }

/-- Modelled from the spec: the Span Calculator's end rule (section 4.4) —
the exact inclusive final-character position for a non-last statement, one
past the final character's line at column 0 for the last statement. -/
def computeEnd (s : SourceStatement) (isLast : Bool) : Position :=
  let fin := finalCharPos s.startPos s.text
  if isLast then { line := fin.line + 1, column := 0 } else fin

/-- Modelled from the spec: assembly of one BackupResult out of a resolved
target, the allocated backup index and the span rule. -/
def mkResult (s : SourceStatement) (r : ResolvedMutationTarget) (idx : Nat)
    (isLast : Bool) : BackupResult :=
  { statement := synthesize r idx s.tailText isLast,
    sourceSchema := r.schema,
    sourceTableName := r.table,
    targetTableName := "rollback_" ++ toString idx ++ "_" ++ r.table,
    index := idx,
    startPosition := s.startPos,
    endPosition := computeEnd s isLast }

/-- Modelled from the spec: processing of one eligible statement — resolver,
then synthesizer and span calculator; a resolution error is returned as the
statement's own outcome. -/
def processOne (cat : String) (s : SourceStatement) (idx : Nat)
    (isLast : Bool) : Except AnalysisError BackupResult :=
  match resolveTarget cat s with
  | .ok r => .ok (mkResult s r idx isLast)
  | .error e => .error e

/-- Modelled from the spec: the orchestrating loop with the Index Allocator
threaded through — eligible statements get an outcome and advance the index,
non-eligible statements are skipped; a statement is last when nothing
follows it in the full stream. -/
def analyzeFrom (cat : String) : List SourceStatement → Nat →
    List (Except AnalysisError BackupResult)
  | [], _ => []
  | s :: rest, idx =>
    if eligible s.kind then
      processOne cat s idx rest.isEmpty :: analyzeFrom cat rest (idx + 1)
    else
      analyzeFrom cat rest idx

/-- Modelled from the spec: the primary entry point (section 6), the index
allocator starting at 0. -/
def analyze (cat : String) (stmts : List SourceStatement) :
    List (Except AnalysisError BackupResult) :=
  analyzeFrom cat stmts 0

/-- Successfully produced backup records of a batch, in order. -/
def okResults (xs : List (Except AnalysisError BackupResult)) :
    List BackupResult :=
  xs.filterMap Except.toOption

/-- Eligible statements of a stream paired with their allocated backup index
and their is-last-in-stream flag. -/
def slotsFrom : List SourceStatement → Nat → List (SourceStatement × Nat × Bool)
  | [], _ => []
  | s :: rest, idx =>
    if eligible s.kind then
      (s, idx, rest.isEmpty) :: slotsFrom rest (idx + 1)
    else
      slotsFrom rest idx

/-- Position (1-indexed line, column 0-indexed relative to the character's
own physical line) of the character at index i of a statement's text whose
first character sits at the given start position. -/
def posOfIndex (start : Position) (cs : List Char) (i : Nat) : Position :=
  let pre := cs.take i
  let nl := pre.count '\n'
  { line := start.line + nl,
    column :=
      if nl = 0 then start.column + i
      else (pre.reverse.takeWhile (fun c => c != '\n')).length }

/-- Fixture 1 of src/unnamed/part_000: DELETE through an alias bound by an
explicit FROM clause. -/
def stAliasDelete : SourceStatement :=
  { text := "DELETE FROM t_alias\nFROM test AS t_alias\nWHERE t_alias.c1 = 1;",
    kind := .delete, target := some "t_alias",
    fromClause := some ⟨"FROM test AS t_alias", [⟨none, none, "test", some "t_alias"⟩]⟩,
    whereText := some "t_alias.c1 = 1", tailText := ";",
    startPos := { line := 1, column := 0 } }

/-- Fixture 2 of src/unnamed/part_000: UPDATE through an alias bound by an
explicit FROM clause. -/
def stAliasUpdate : SourceStatement :=
  { text := "UPDATE t_alias\nSET t_alias.c1 = 2\nFROM test AS t_alias\nWHERE t_alias.c1 = 1;",
    kind := .update, target := some "t_alias",
    fromClause := some ⟨"FROM test AS t_alias", [⟨none, none, "test", some "t_alias"⟩]⟩,
    whereText := some "t_alias.c1 = 1", tailText := ";",
    startPos := { line := 1, column := 0 } }

/-- Fixture 3 of src/unnamed/part_000: DELETE of a bare table named inside a
multi-table FROM with JOIN. -/
def stJoinDelete : SourceStatement :=
  { text := "DELETE FROM test\nFROM test JOIN test2 ON test.c1 = test2.c1\nWHERE test.c1 = 1;",
    kind := .delete, target := some "test",
    fromClause := some ⟨"FROM test JOIN test2 ON test.c1 = test2.c1",
      [⟨none, none, "test", none⟩, ⟨none, none, "test2", none⟩]⟩,
    whereText := some "test.c1 = 1", tailText := ";",
    startPos := { line := 1, column := 0 } }

/-- Fixture 4 of src/unnamed/part_000: UPDATE of a bare table named inside a
multi-table FROM with JOIN. -/
def stJoinUpdate : SourceStatement :=
  { text := "UPDATE test\nSET test.c1 = 2\nFROM test JOIN test2 ON test.c1 = test2.c1\nWHERE test.c1 = 1;",
    kind := .update, target := some "test",
    fromClause := some ⟨"FROM test JOIN test2 ON test.c1 = test2.c1",
      [⟨none, none, "test", none⟩, ⟨none, none, "test2", none⟩]⟩,
    whereText := some "test.c1 = 1", tailText := ";",
    startPos := { line := 1, column := 0 } }

/-- Fixtures 5/6 of src/unnamed/part_000: one-line DELETE with no explicit
FROM clause. -/
def stPlainDelete : SourceStatement :=
  { text := "DELETE FROM test WHERE c1 = 1;",
    kind := .delete, target := some "test", fromClause := none,
    whereText := some "c1 = 1", tailText := ";",
    startPos := { line := 1, column := 0 } }

/-- Fixture 5 of src/unnamed/part_000, second statement: one-line UPDATE with
no explicit FROM clause, starting on line 2. -/
def stPlainUpdate : SourceStatement :=
  { text := "UPDATE test SET test.c1 = 2 WHERE test.c1 = 1;",
    kind := .update, target := some "test", fromClause := none,
    whereText := some "test.c1 = 1", tailText := ";",
    startPos := { line := 2, column := 0 } }

/-- Fixture 7 of src/unnamed/part_000: one-line UPDATE with no explicit FROM
clause whose no-FROM/no-alias shape is as fixture 6. -/
def stNoFromUpdate : SourceStatement :=
  { text := "UPDATE test SET c1 = 1 WHERE c1=2;",
    kind := .update, target := some "test", fromClause := none,
    whereText := some "c1=2", tailText := ";",
    startPos := { line := 1, column := 0 } }

/-- Fixture 8 of src/unnamed/part_000, first statement: a space sits between
the WHERE predicate's last token and the terminating semicolon, so the
verbatim trailing bytes are a space and the semicolon. -/
def stSpacedUpdate1 : SourceStatement :=
  { text := "UPDATE test SET test.c1 = 2 WHERE test.c1 = 1 ;",
    kind := .update, target := some "test", fromClause := none,
    whereText := some "test.c1 = 1", tailText := " ;",
    startPos := { line := 1, column := 0 } }

/-- Fixture 8 of src/unnamed/part_000, second statement, starting on line 2. -/
def stSpacedUpdate2 : SourceStatement :=
  { text := "UPDATE test SET test.c1 = 3 WHERE test.c1 = 5 ;",
    kind := .update, target := some "test", fromClause := none,
    whereText := some "test.c1 = 5", tailText := " ;",
    startPos := { line := 2, column := 0 } }

/-- A statement whose target identifier matches neither an alias nor a bare
table of its own FROM/JOIN clause: its resolution must fail. -/
def stDangling : SourceStatement :=
  { text := "DELETE FROM zzz\nFROM test AS t\nWHERE t.c1 = 1;",
    kind := .delete, target := some "zzz",
    fromClause := some ⟨"FROM test AS t", [⟨none, none, "test", some "t"⟩]⟩,
    whereText := some "t.c1 = 1", tailText := ";",
    startPos := { line := 1, column := 0 } }

/-- A non-eligible statement: skipped by the analysis, consuming no index. -/
def stOther : SourceStatement :=
  { text := "SELECT 1;",
    kind := .other, target := none, fromClause := none,
    whereText := none, tailText := ";",
    startPos := { line := 2, column := 0 } }

deriving instance DecidableEq for Except

/-- Resolved mutation target of the JOIN fixture under current catalog db. -/
def resolvedJoin : ResolvedMutationTarget :=
  ⟨"db", "dbo", "test", tripleQuoted "db" "dbo" "test",
    "FROM test JOIN test2 ON test.c1 = test2.c1", some "test.c1 = 1"⟩

/-- Resolved mutation target of the alias fixture under current catalog db. -/
def resolvedAlias : ResolvedMutationTarget :=
  ⟨"db", "dbo", "test", quoteIdent "t_alias",
    "FROM test AS t_alias", some "t_alias.c1 = 1"⟩

/-- Resolved mutation target of the plain UPDATE fixture under catalog db. -/
def resolvedPlainUpdate : ResolvedMutationTarget :=
  ⟨"db", "dbo", "test", tripleQuoted "db" "dbo" "test",
    "FROM test", some "test.c1 = 1"⟩

/-- Resolved mutation target of the plain DELETE fixture under catalog db. -/
def resolvedPlainDelete : ResolvedMutationTarget :=
  ⟨"db", "dbo", "test", tripleQuoted "db" "dbo" "test",
    "FROM test", some "c1 = 1"⟩

/-- Backup record the model produces for the plain DELETE as the first of two
statements. -/
def resPlainDelete0 : BackupResult :=
  ⟨"SELECT \"db\".\"dbo\".\"test\".* INTO \"backupDB\".\"dbo\".\"rollback_0_test\" FROM test WHERE c1 = 1;",
    "dbo", "test", "rollback_0_test", 0, ⟨1, 0⟩, ⟨1, 29⟩⟩

/-- Backup record the model produces for the plain UPDATE as the last
statement, with backup index 1. -/
def resPlainUpdate1 : BackupResult :=
  ⟨"SELECT \"db\".\"dbo\".\"test\".* INTO \"backupDB\".\"dbo\".\"rollback_1_test\" FROM test WHERE test.c1 = 1\n;",
    "dbo", "test", "rollback_1_test", 1, ⟨2, 0⟩, ⟨3, 0⟩⟩

/-- Validation: the model reproduces fixture 1 of src/unnamed/part_000
exactly (output statement, names, schema and span). -/
theorem fixture_alias_delete :
    analyze "db" [stAliasDelete] =
      [.ok ⟨"SELECT \"t_alias\".* INTO \"backupDB\".\"dbo\".\"rollback_0_test\" FROM test AS t_alias WHERE t_alias.c1 = 1\n;",
        "dbo", "test", "rollback_0_test", 0, ⟨1, 0⟩, ⟨4, 0⟩⟩] := by decide

/-- Validation: the model reproduces fixture 2 of src/unnamed/part_000
exactly. -/
theorem fixture_alias_update :
    analyze "db" [stAliasUpdate] =
      [.ok ⟨"SELECT \"t_alias\".* INTO \"backupDB\".\"dbo\".\"rollback_0_test\" FROM test AS t_alias WHERE t_alias.c1 = 1\n;",
        "dbo", "test", "rollback_0_test", 0, ⟨1, 0⟩, ⟨5, 0⟩⟩] := by decide

/-- Validation: the model reproduces fixture 3 of src/unnamed/part_000
exactly. -/
theorem fixture_join_delete :
    analyze "db" [stJoinDelete] =
      [.ok ⟨"SELECT \"db\".\"dbo\".\"test\".* INTO \"backupDB\".\"dbo\".\"rollback_0_test\" FROM test JOIN test2 ON test.c1 = test2.c1 WHERE test.c1 = 1\n;",
        "dbo", "test", "rollback_0_test", 0, ⟨1, 0⟩, ⟨4, 0⟩⟩] := by decide

/-- Validation: the model reproduces fixture 4 of src/unnamed/part_000
exactly. -/
theorem fixture_join_update :
    analyze "db" [stJoinUpdate] =
      [.ok ⟨"SELECT \"db\".\"dbo\".\"test\".* INTO \"backupDB\".\"dbo\".\"rollback_0_test\" FROM test JOIN test2 ON test.c1 = test2.c1 WHERE test.c1 = 1\n;",
        "dbo", "test", "rollback_0_test", 0, ⟨1, 0⟩, ⟨5, 0⟩⟩] := by decide

/-- Validation: the model reproduces fixture 5 of src/unnamed/part_000
exactly — a two-statement batch with indices 0 and 1, the first statement
keeping its own semicolon and exact end position, the last one getting the
pushed-out boundary. -/
theorem fixture_two_statement_batch :
    analyze "db" [stPlainDelete, stPlainUpdate] =
      [.ok ⟨"SELECT \"db\".\"dbo\".\"test\".* INTO \"backupDB\".\"dbo\".\"rollback_0_test\" FROM test WHERE c1 = 1;",
        "dbo", "test", "rollback_0_test", 0, ⟨1, 0⟩, ⟨1, 29⟩⟩,
       .ok ⟨"SELECT \"db\".\"dbo\".\"test\".* INTO \"backupDB\".\"dbo\".\"rollback_1_test\" FROM test WHERE test.c1 = 1\n;",
        "dbo", "test", "rollback_1_test", 1, ⟨2, 0⟩, ⟨3, 0⟩⟩] := by decide

/-- Validation: the model reproduces fixture 6 of src/unnamed/part_000
exactly. -/
theorem fixture_single_delete :
    analyze "db" [stPlainDelete] =
      [.ok ⟨"SELECT \"db\".\"dbo\".\"test\".* INTO \"backupDB\".\"dbo\".\"rollback_0_test\" FROM test WHERE c1 = 1\n;",
        "dbo", "test", "rollback_0_test", 0, ⟨1, 0⟩, ⟨2, 0⟩⟩] := by decide

/-- Validation: the model reproduces fixture 7 of src/unnamed/part_000
exactly — no FROM clause, so the FROM is synthesized from the bare table
name. -/
theorem fixture_no_from_update :
    analyze "db" [stNoFromUpdate] =
      [.ok ⟨"SELECT \"db\".\"dbo\".\"test\".* INTO \"backupDB\".\"dbo\".\"rollback_0_test\" FROM test WHERE c1=2\n;",
        "dbo", "test", "rollback_0_test", 0, ⟨1, 0⟩, ⟨2, 0⟩⟩] := by decide

/-- Validation: the model reproduces fixture 8 of src/unnamed/part_000
exactly — the space before the first statement's semicolon survives
byte-for-byte, the last statement's does not reach the output. -/
theorem fixture_spaced_semicolons :
    analyze "db" [stSpacedUpdate1, stSpacedUpdate2] =
      [.ok ⟨"SELECT \"db\".\"dbo\".\"test\".* INTO \"backupDB\".\"dbo\".\"rollback_0_test\" FROM test WHERE test.c1 = 1 ;",
        "dbo", "test", "rollback_0_test", 0, ⟨1, 0⟩, ⟨1, 46⟩⟩,
       .ok ⟨"SELECT \"db\".\"dbo\".\"test\".* INTO \"backupDB\".\"dbo\".\"rollback_1_test\" FROM test WHERE test.c1 = 5\n;",
        "dbo", "test", "rollback_1_test", 1, ⟨2, 0⟩, ⟨3, 0⟩⟩] := by decide

theorem analyzeFrom_cons_eligible {s : SourceStatement} (cat : String)
    (h : eligible s.kind = true) (rest : List SourceStatement) (idx : Nat) :
    analyzeFrom cat (s :: rest) idx =
      processOne cat s idx rest.isEmpty :: analyzeFrom cat rest (idx + 1) := by
  simp [analyzeFrom, h]

theorem analyzeFrom_cons_skip {s : SourceStatement} (cat : String)
    (h : eligible s.kind = false) (rest : List SourceStatement) (idx : Nat) :
    analyzeFrom cat (s :: rest) idx = analyzeFrom cat rest idx := by
  simp [analyzeFrom, h]

theorem processOne_of_ok {cat : String} {s : SourceStatement}
    {r : ResolvedMutationTarget} (h : resolveTarget cat s = .ok r)
    (idx : Nat) (l : Bool) :
    processOne cat s idx l = .ok (mkResult s r idx l) := by
  simp [processOne, h]

theorem processOne_of_error {cat : String} {s : SourceStatement}
    {e : AnalysisError} (h : resolveTarget cat s = .error e)
    (idx : Nat) (l : Bool) :
    processOne cat s idx l = .error e := by
  simp [processOne, h]

/-- The first outcome of a stream beginning with an eligible statement comes
from that statement alone: some resolution succeeded and the outcome is the
assembled record. -/
theorem head_ok_shape {cat : String} {s : SourceStatement}
    {rest : List SourceStatement} {idx : Nat} {res : BackupResult}
    (he : eligible s.kind = true)
    (hok : (analyzeFrom cat (s :: rest) idx).head? = some (.ok res)) :
    ∃ r, resolveTarget cat s = .ok r ∧ res = mkResult s r idx rest.isEmpty := by
  rw [analyzeFrom_cons_eligible cat he rest idx] at hok
  simp only [List.head?_cons, Option.some.injEq] at hok
  cases hres : resolveTarget cat s with
  | ok r =>
    rw [processOne_of_ok hres] at hok
    exact ⟨r, rfl, by injection hok with h; exact h.symm⟩
  | error e =>
    rw [processOne_of_error hres] at hok
    cases hok

/-- Both successful resolver branches of a statement with an explicit
FROM/JOIN clause reuse that clause's verbatim text and the statement's
verbatim WHERE predicate. -/
theorem resolve_reuses_source {cat : String} {s : SourceStatement}
    {fc : FromClause} {r : ResolvedMutationTarget}
    (hfc : s.fromClause = some fc) (hr : resolveTarget cat s = .ok r) :
    r.fromText = fc.raw ∧ r.whereText = s.whereText := by
  unfold resolveTarget at hr
  cases ht : s.target with
  | none => rw [ht] at hr; cases hr
  | some tgt =>
    rw [ht, hfc] at hr
    cases h1 : fc.tables.find? (fun tr => tr.aliasName == some tgt) with
    | some tr =>
      simp only [h1] at hr
      injection hr with h
      subst h
      exact ⟨rfl, rfl⟩
    | none =>
      simp only [h1] at hr
      cases h2 : fc.tables.find? (fun tr => tr.table == tgt && tr.aliasName.isNone) with
      | some tr =>
        simp only [h2] at hr
        injection hr with h
        subst h
        exact ⟨rfl, rfl⟩
      | none => simp only [h2] at hr; cases hr

/-- Every synthesized statement opens with `SELECT <projection>.* `. -/
theorem synthesize_select_head (r : ResolvedMutationTarget) (idx : Nat)
    (tl : String) (b : Bool) :
    ∃ rest, synthesize r idx tl b =
      "SELECT " ++ r.projection ++ ".* " ++ rest := by
  refine ⟨"INTO \"backupDB\".\"" ++ r.schema ++ "\".\"rollback_" ++ toString idx ++
    "_" ++ r.table ++ "\" " ++ r.fromText ++ wherePart r.whereText ++
    (if b then "\n;" else tl), ?_⟩
  have hsplit : (".* INTO \"backupDB\".\"" : String) = ".* " ++ "INTO \"backupDB\".\"" := by
    decide
  simp only [synthesize, hsplit, String.append_assoc]

/-- Claim C2 counterexample: on the alias fixture the synthesized SELECT does
not open with the bare, unquoted alias projection the claim describes; the
alias is emitted double-quoted. -/
theorem c2_counterexample :
    (okResults (analyze "db" [stAliasDelete])).map
        (fun res => res.statement.data.take 16) = ["SELECT \"t_alias\"".data] ∧
    ("SELECT \"t_alias\"".data ≠ "SELECT t_alias.*".data) := by
  exact ⟨by decide, by decide⟩

/-- Claim C2 (amended): for every eligible statement whose target identifier
matches an alias bound in its FROM/JOIN clause, the projection is that alias
alone — individually double-quoted like every identifier the synthesizer
emits — with no catalog/schema qualification, and never the fully-qualified
triple: the synthesized statement opens `SELECT "<alias>".* `. -/
theorem c2_alias_projection (cat : String) (s : SourceStatement) (t : String)
    (fc : FromClause) (tr : TableReference) (idx : Nat) (b : Bool)
    (_he : eligible s.kind = true)
    (ht : s.target = some t)
    (hfc : s.fromClause = some fc)
    (hfind : fc.tables.find? (fun x => x.aliasName == some t) = some tr) :
    ∃ r, resolveTarget cat s = .ok r ∧ r.projection = quoteIdent t ∧
      r.table = tr.table ∧
      ∃ rest, synthesize r idx s.tailText b =
        "SELECT " ++ quoteIdent t ++ ".* " ++ rest := by
  refine ⟨⟨tr.catalog.getD cat, tr.schema.getD "dbo", tr.table, quoteIdent t,
    fc.raw, s.whereText⟩, ?_, rfl, rfl, ?_⟩
  · unfold resolveTarget
    rw [ht, hfc]
    simp only [hfind]
  · exact synthesize_select_head ⟨tr.catalog.getD cat, tr.schema.getD "dbo",
      tr.table, quoteIdent t, fc.raw, s.whereText⟩ idx s.tailText b

/-- Claim C2 witness: the amended statement at the alias fixture. -/
theorem c2_alias_projection_witness :
    ∃ r, resolveTarget "db" stAliasDelete = .ok r ∧
      r.projection = quoteIdent "t_alias" ∧
      r.table = "test" ∧
      ∃ rest, synthesize r 0 stAliasDelete.tailText true =
        "SELECT " ++ quoteIdent "t_alias" ++ ".* " ++ rest :=
  c2_alias_projection "db" stAliasDelete "t_alias"
    ⟨"FROM test AS t_alias", [⟨none, none, "test", some "t_alias"⟩]⟩
    ⟨none, none, "test", some "t_alias"⟩ 0 true
    (by decide) (by decide) (by decide) (by decide)

/-- Resolver branch for a statement without an explicit FROM/JOIN clause:
the target identifier is the table, catalog and schema are defaulted, the
FROM clause is synthesized from the bare table name. -/
theorem resolveTarget_noFrom (cat : String) (s : SourceStatement) (tgt : String)
    (ht : s.target = some tgt) (hfc : s.fromClause = none) :
    resolveTarget cat s =
      .ok ⟨cat, "dbo", tgt, tripleQuoted cat "dbo" tgt, "FROM " ++ tgt,
        s.whereText⟩ := by
  unfold resolveTarget
  rw [ht, hfc]

/-- Claim C6: for every eligible statement without an explicit FROM/JOIN
clause, the synthesized FROM clause is exactly `FROM <table>` with the bare
table name, no alias and no schema/catalog qualification. -/
theorem c6_synthesized_from (cat : String) (s : SourceStatement) (t : String)
    (_he : eligible s.kind = true)
    (ht : s.target = some t) (hfc : s.fromClause = none) :
    ∃ r, resolveTarget cat s = .ok r ∧ r.fromText = "FROM " ++ t ∧
      r.table = t :=
  ⟨_, resolveTarget_noFrom cat s t ht hfc, rfl, rfl⟩

/-- Claim C6 witness: the no-FROM UPDATE fixture. -/
theorem c6_synthesized_from_witness :
    ∃ r, resolveTarget "db" stNoFromUpdate = .ok r ∧
      r.fromText = "FROM " ++ "test" ∧ r.table = "test" :=
  c6_synthesized_from "db" stNoFromUpdate "test" (by decide) (by decide)
    (by decide)

/-- Claim C3: for every eligible statement whose target identifier is a bare
table name (no alias bound to it), the projection is the fully-qualified,
individually double-quoted catalog.schema.table triple — catalog defaulted
from the current catalog and schema defaulted to dbo when absent — whether or
not a JOIN is present, and the synthesized statement opens with it. -/
theorem c3_bare_projection (cat : String) (s : SourceStatement)
    (r : ResolvedMutationTarget) (idx : Nat) (b : Bool)
    (_he : eligible s.kind = true)
    (hna : targetIsAlias s = false)
    (hr : resolveTarget cat s = .ok r) :
    r.projection = tripleQuoted r.catalog r.schema r.table ∧
    (s.fromClause = none → r.catalog = cat ∧ r.schema = "dbo") ∧
    ∃ rest, synthesize r idx s.tailText b =
      "SELECT " ++ tripleQuoted r.catalog r.schema r.table ++ ".* " ++ rest := by
  have hproj : r.projection = tripleQuoted r.catalog r.schema r.table ∧
      (s.fromClause = none → r.catalog = cat ∧ r.schema = "dbo") := by
    unfold resolveTarget at hr
    cases ht : s.target with
    | none => rw [ht] at hr; cases hr
    | some tgt =>
      rw [ht] at hr
      cases hfc : s.fromClause with
      | none =>
        rw [hfc] at hr
        have hr2 : Except.ok (⟨cat, "dbo", tgt, tripleQuoted cat "dbo" tgt,
            "FROM " ++ tgt, s.whereText⟩ : ResolvedMutationTarget) =
            Except.ok r := hr
        injection hr2 with h
        subst h
        exact ⟨rfl, fun _ => ⟨rfl, rfl⟩⟩
      | some fc =>
        rw [hfc] at hr
        unfold targetIsAlias at hna
        rw [ht, hfc] at hna
        cases h1 : fc.tables.find? (fun tr => tr.aliasName == some tgt) with
        | some tr =>
          simp only [h1, Option.isSome_some] at hna
          exact Bool.noConfusion hna
        | none =>
          simp only [h1] at hr
          cases h2 : fc.tables.find?
              (fun tr => tr.table == tgt && tr.aliasName.isNone) with
          | some tr =>
            simp only [h2] at hr
            injection hr with h
            subst h
            exact ⟨rfl, fun hcon => Option.noConfusion hcon⟩
          | none => simp only [h2] at hr; cases hr
  refine ⟨hproj.1, hproj.2, ?_⟩
  have hhead := synthesize_select_head r idx s.tailText b
  rwa [hproj.1] at hhead

/-- Claim C3 witness: the JOIN DELETE fixture, whose target is the bare table
name test while a JOIN is present. -/
theorem c3_bare_projection_witness :
    resolvedJoin.projection =
      tripleQuoted resolvedJoin.catalog resolvedJoin.schema resolvedJoin.table ∧
    (stJoinDelete.fromClause = none →
      resolvedJoin.catalog = "db" ∧ resolvedJoin.schema = "dbo") ∧
    ∃ rest, synthesize resolvedJoin 0 stJoinDelete.tailText true =
      "SELECT " ++ tripleQuoted resolvedJoin.catalog resolvedJoin.schema
        resolvedJoin.table ++ ".* " ++ rest :=
  c3_bare_projection "db" stJoinDelete resolvedJoin 0 true (by decide)
    (by decide) (by decide)

/-- Claim C9: for every eligible statement, the produced record's start
position is the statement's own first-token position, unchanged. -/
theorem c9_start_position (cat : String) (s : SourceStatement)
    (rest : List SourceStatement) (idx : Nat) (res : BackupResult)
    (he : eligible s.kind = true)
    (hok : (analyzeFrom cat (s :: rest) idx).head? = some (.ok res)) :
    res.startPosition = s.startPos := by
  obtain ⟨r, hr, hres⟩ := head_ok_shape he hok
  subst hres
  rfl

/-- Claim C9 witness: the plain UPDATE fixture processed as the tail of a
batch keeps its own start position (line 2, column 0). -/
theorem c9_start_position_witness :
    resPlainUpdate1.startPosition = stPlainUpdate.startPos :=
  c9_start_position "db" stPlainUpdate [] 1 resPlainUpdate1 (by decide)
    (by decide)

/-- Claim C4 counterexample: on the single-DELETE fixture the produced text
is the claimed SELECT ... INTO ... FROM ... WHERE ... form followed by a
newline and a semicolon, so it does not equal the claimed exact form. -/
theorem c4_counterexample :
    (okResults (analyze "db" [stPlainDelete])).map (fun res => res.statement) =
      ["SELECT \"db\".\"dbo\".\"test\".* INTO \"backupDB\".\"dbo\".\"rollback_0_test\" FROM test WHERE c1 = 1\n;"] ∧
    ("SELECT \"db\".\"dbo\".\"test\".* INTO \"backupDB\".\"dbo\".\"rollback_0_test\" FROM test WHERE c1 = 1\n;" : String) ≠
      "SELECT \"db\".\"dbo\".\"test\".* INTO \"backupDB\".\"dbo\".\"rollback_0_test\" FROM test WHERE c1 = 1" :=
  ⟨by decide, by decide⟩

/-- Claim C4 (amended): every produced statement text is exactly
SELECT projection.* INTO "backupDB"."schema"."rollback_index_table" followed
by the reused FROM text, the WHERE part, and a terminator — the statement's
own verbatim trailing bytes (which end in its semicolon) when the statement
is not the last of the stream, a newline and a fresh semicolon when it is;
the backup catalog is the fixed constant backupDB, the record's source
schema equals the resolved schema and the backup table name embeds the bare
resolved table name. -/
theorem c4_statement_shape (cat : String) (s : SourceStatement)
    (rest : List SourceStatement) (idx : Nat) (res : BackupResult)
    (r : ResolvedMutationTarget)
    (he : eligible s.kind = true)
    (hr : resolveTarget cat s = .ok r)
    (hok : (analyzeFrom cat (s :: rest) idx).head? = some (.ok res)) :
    res.statement =
      "SELECT " ++ r.projection ++ ".* INTO \"backupDB\".\"" ++ r.schema ++
        "\".\"rollback_" ++ toString idx ++ "_" ++ r.table ++ "\" " ++
        r.fromText ++ wherePart r.whereText ++
        (if rest.isEmpty then "\n;" else s.tailText) ∧
    res.targetTableName = "rollback_" ++ toString idx ++ "_" ++ r.table ∧
    res.sourceSchema = r.schema := by
  obtain ⟨r2, hr2, hres⟩ := head_ok_shape he hok
  rw [hr] at hr2
  injection hr2 with h
  subst h
  subst hres
  exact ⟨rfl, rfl, rfl⟩

/-- Claim C4 witness: the amended statement at the plain DELETE fixture as a
non-last statement of a two-statement batch. -/
theorem c4_statement_shape_witness :
    resPlainDelete0.statement =
      "SELECT " ++ resolvedPlainDelete.projection ++
        ".* INTO \"backupDB\".\"" ++ resolvedPlainDelete.schema ++
        "\".\"rollback_" ++ toString 0 ++ "_" ++ resolvedPlainDelete.table ++
        "\" " ++ resolvedPlainDelete.fromText ++
        wherePart resolvedPlainDelete.whereText ++
        (if ([stPlainUpdate] : List SourceStatement).isEmpty then "\n;"
          else stPlainDelete.tailText) ∧
    resPlainDelete0.targetTableName =
      "rollback_" ++ toString 0 ++ "_" ++ resolvedPlainDelete.table ∧
    resPlainDelete0.sourceSchema = resolvedPlainDelete.schema :=
  c4_statement_shape "db" stPlainDelete [stPlainUpdate] 0 resPlainDelete0
    resolvedPlainDelete (by decide) (by decide) (by decide)

/-- Claim C5: the FROM/JOIN clause text and the WHERE predicate text that
appear in the synthesized output are byte-identical to the corresponding
substrings of the original source statement: the verbatim source fragments
are embedded unchanged in the output. -/
theorem c5_verbatim_fragments (cat : String) (s : SourceStatement)
    (fc : FromClause) (w : String) (idx : Nat) (b : Bool)
    (r : ResolvedMutationTarget)
    (_he : eligible s.kind = true)
    (hfc : s.fromClause = some fc)
    (hw : s.whereText = some w)
    (_hsrcF : ∃ p q, p ++ fc.raw ++ q = s.text)
    (_hsrcW : ∃ p q, p ++ w ++ q = s.text)
    (hr : resolveTarget cat s = .ok r) :
    (∃ p q, p ++ fc.raw ++ q = synthesize r idx s.tailText b) ∧
    (∃ p q, p ++ w ++ q = synthesize r idx s.tailText b) := by
  obtain ⟨hF, hW⟩ := resolve_reuses_source hfc hr
  constructor
  · refine ⟨"SELECT " ++ r.projection ++ ".* INTO \"backupDB\".\"" ++ r.schema ++
      "\".\"rollback_" ++ toString idx ++ "_" ++ r.table ++ "\" ",
      wherePart r.whereText ++ (if b then "\n;" else s.tailText), ?_⟩
    rw [← hF]
    simp only [synthesize, String.append_assoc]
  · refine ⟨"SELECT " ++ r.projection ++ ".* INTO \"backupDB\".\"" ++ r.schema ++
      "\".\"rollback_" ++ toString idx ++ "_" ++ r.table ++ "\" " ++
      r.fromText ++ " WHERE ", if b then "\n;" else s.tailText, ?_⟩
    simp only [synthesize, hW, hw, wherePart, String.append_assoc]

/-- Claim C5 witness: the alias fixture, whose FROM clause and WHERE
predicate are substrings of the three-line source text and reappear
byte-for-byte in the output. -/
theorem c5_verbatim_fragments_witness :
    (∃ p q, p ++ "FROM test AS t_alias" ++ q =
      synthesize resolvedAlias 0 stAliasDelete.tailText true) ∧
    (∃ p q, p ++ "t_alias.c1 = 1" ++ q =
      synthesize resolvedAlias 0 stAliasDelete.tailText true) :=
  c5_verbatim_fragments "db" stAliasDelete
    ⟨"FROM test AS t_alias", [⟨none, none, "test", some "t_alias"⟩]⟩
    "t_alias.c1 = 1" 0 true resolvedAlias (by decide) (by decide) (by decide)
    ⟨"DELETE FROM t_alias\n", "\nWHERE t_alias.c1 = 1;", by decide⟩
    ⟨"DELETE FROM t_alias\nFROM test AS t_alias\nWHERE ", ";", by decide⟩
    (by decide)

theorem okResults_ok_cons (x : BackupResult)
    (xs : List (Except AnalysisError BackupResult)) :
    okResults (.ok x :: xs) = x :: okResults xs := by
  simp [okResults, List.filterMap_cons, Except.toOption]

theorem okResults_error_cons (e : AnalysisError)
    (xs : List (Except AnalysisError BackupResult)) :
    okResults (.error e :: xs) = okResults xs := by
  simp [okResults, List.filterMap_cons, Except.toOption]

/-- On a batch whose outcomes all succeed, the backup indices of the
produced records starting from allocator value idx are exactly
idx, idx+1, ... for each eligible statement in document order. -/
theorem analyzeFrom_ok_indices (cat : String) :
    ∀ (l : List SourceStatement) (idx : Nat),
      (∀ x ∈ analyzeFrom cat l idx, x.isOk = true) →
      (okResults (analyzeFrom cat l idx)).map (fun res => res.index) =
        List.range' idx (countEligible l) := by
  intro l
  induction l with
  | nil =>
    intro idx _
    simp [analyzeFrom, okResults, countEligible]
  | cons s rest ih =>
    intro idx h
    cases hk : eligible s.kind with
    | false =>
      rw [analyzeFrom_cons_skip cat hk rest idx] at h ⊢
      rw [ih idx h]
      have hcount : countEligible (s :: rest) = countEligible rest := by
        simp [countEligible, List.countP_cons, hk]
      rw [hcount]
    | true =>
      rw [analyzeFrom_cons_eligible cat hk rest idx] at h ⊢
      have hhead := h _ (List.mem_cons_self _ _)
      cases hp : processOne cat s idx rest.isEmpty with
      | error e =>
        rw [hp] at hhead
        simp [Except.isOk, Except.toBool] at hhead
      | ok res =>
        rw [okResults_ok_cons, List.map_cons]
        have hidx : res.index = idx := by
          unfold processOne at hp
          cases hres : resolveTarget cat s with
          | ok r =>
            simp only [hres] at hp
            injection hp with h2
            rw [← h2]
            rfl
          | error e =>
            simp only [hres] at hp
            exact Except.noConfusion hp
        have hcount : countEligible (s :: rest) = countEligible rest + 1 := by
          simp [countEligible, List.countP_cons, hk]
        rw [hidx, ih (idx + 1) (fun x hx => h x (List.mem_cons_of_mem _ hx)),
          hcount, List.range'_succ]

/-- Every produced record's backup table name is `rollback_` followed by its
own backup index, an underscore, and its bare source table name. -/
theorem analyzeFrom_ok_name (cat : String) :
    ∀ (l : List SourceStatement) (idx : Nat) (res : BackupResult),
      res ∈ okResults (analyzeFrom cat l idx) →
      res.targetTableName =
        "rollback_" ++ toString res.index ++ "_" ++ res.sourceTableName := by
  intro l
  induction l with
  | nil => intro idx res h; simp [analyzeFrom, okResults] at h
  | cons s rest ih =>
    intro idx res h
    cases hk : eligible s.kind with
    | false =>
      rw [analyzeFrom_cons_skip cat hk rest idx] at h
      exact ih idx res h
    | true =>
      rw [analyzeFrom_cons_eligible cat hk rest idx] at h
      cases hp : processOne cat s idx rest.isEmpty with
      | error e =>
        rw [hp, okResults_error_cons] at h
        exact ih (idx + 1) res h
      | ok res2 =>
        rw [hp, okResults_ok_cons] at h
        cases h with
        | head =>
          unfold processOne at hp
          cases hres : resolveTarget cat s with
          | ok r =>
            simp only [hres] at hp
            injection hp with h2
            rw [← h2]
            rfl
          | error e =>
            simp only [hres] at hp
            exact Except.noConfusion hp
        | tail _ h2 => exact ih (idx + 1) res h2

/-- Claim C1: on a batch whose eligible statements all resolve, the backup
indices embedded in the produced records are exactly 0..k-1 where k is the
number of eligible (DELETE/UPDATE) statements, in document order with no
gaps or repeats — non-eligible statements are skipped and do not advance
the index — and each record's backup table name embeds its own index as
rollback_index_table. -/
theorem c1_backup_indices (cat : String) (stmts : List SourceStatement)
    (h : ∀ x ∈ analyze cat stmts, x.isOk = true) :
    (okResults (analyze cat stmts)).map (fun res => res.index) =
      List.range (countEligible stmts) ∧
    ∀ res ∈ okResults (analyze cat stmts),
      res.targetTableName =
        "rollback_" ++ toString res.index ++ "_" ++ res.sourceTableName := by
  constructor
  · rw [List.range_eq_range']
    exact analyzeFrom_ok_indices cat stmts 0 h
  · intro res hres
    exact analyzeFrom_ok_name cat stmts 0 res hres

/-- Claim C1 witness: a three-statement batch whose middle statement is not
eligible — the two eligible statements get indices 0 and 1. -/
theorem c1_backup_indices_witness :
    (okResults (analyze "db" [stPlainDelete, stOther, stPlainUpdate])).map
        (fun res => res.index) =
      List.range (countEligible [stPlainDelete, stOther, stPlainUpdate]) ∧
    ∀ res ∈ okResults (analyze "db" [stPlainDelete, stOther, stPlainUpdate]),
      res.targetTableName =
        "rollback_" ++ toString res.index ++ "_" ++ res.sourceTableName :=
  c1_backup_indices "db" [stPlainDelete, stOther, stPlainUpdate] (by decide)

theorem takeWhile_ne_of_count_zero : ∀ {l : List Char}, l.count '\n' = 0 →
    l.takeWhile (fun x => x != '\n') = l := by
  intro l
  induction l with
  | nil => intro _; rfl
  | cons a l ih =>
    intro h
    rw [List.count_cons] at h
    by_cases ha : a = '\n'
    · subst ha; simp at h
    · have h0 : l.count '\n' = 0 := by
        simpa [ha] using h
      have hb : (a != '\n') = true := bne_iff_ne.mpr ha
      simp [List.takeWhile_cons, hb, ih h0]

theorem finalCharPos_def (start : Position) (text : String) :
    finalCharPos start text =
      ⟨start.line + text.data.count '\n',
        (if text.data.count '\n' = 0 then start.column else 0) +
          lastLineLen text.data - 1⟩ := rfl

theorem posOfIndex_def (start : Position) (cs : List Char) (i : Nat) :
    posOfIndex start cs i =
      ⟨start.line + (cs.take i).count '\n',
        if (cs.take i).count '\n' = 0 then start.column + i
        else ((cs.take i).reverse.takeWhile (fun c => c != '\n')).length⟩ := rfl

/-- On a text that ends in a non-newline character, the aggregated
final-character position of the Span Calculator coincides with the position
of the character at the text's last index. -/
theorem finalCharPos_concat (start : Position) (text : String) (pre : List Char)
    (c : Char) (hsplit : text.data = pre ++ [c]) (hc : c ≠ '\n') :
    finalCharPos start text = posOfIndex start text.data (text.data.length - 1) := by
  rw [finalCharPos_def, posOfIndex_def, hsplit]
  have hlen : (pre ++ [c]).length - 1 = pre.length := by simp
  rw [hlen, List.take_left]
  have hcnt : (pre ++ [c]).count '\n' = pre.count '\n' := by
    rw [List.count_append]
    simp [List.count_singleton', hc]
  rw [hcnt]
  have hlast : lastLineLen (pre ++ [c]) =
      (pre.reverse.takeWhile (fun x => x != '\n')).length + 1 := by
    unfold lastLineLen
    rw [List.reverse_append]
    simp only [List.reverse_cons, List.reverse_nil, List.nil_append,
      List.singleton_append]
    have hb : (c != '\n') = true := bne_iff_ne.mpr hc
    simp [List.takeWhile_cons, hb]
  rw [hlast]
  by_cases hz : pre.count '\n' = 0
  · have hfull : pre.reverse.takeWhile (fun x => x != '\n') = pre.reverse :=
      takeWhile_ne_of_count_zero (by rw [List.count_reverse]; exact hz)
    rw [hfull, List.length_reverse, if_pos hz, if_pos hz]
    have harith : start.column + (pre.length + 1) - 1 =
        start.column + pre.length := by omega
    rw [harith]
  · rw [if_neg hz, if_neg hz]
    have harith : 0 + ((pre.reverse.takeWhile (fun x => x != '\n')).length + 1) - 1 =
        (pre.reverse.takeWhile (fun x => x != '\n')).length := by omega
    rw [harith]

/-- Claim C7: for every eligible statement that is not the last statement of
the stream, the produced record's end position is the exact, inclusive
(line, column) of the statement's own terminating character — the position
of the character at the last index of the statement's own text, column
0-indexed relative to that character's own physical line. -/
theorem c7_end_position_nonlast (cat : String) (s : SourceStatement)
    (rest : List SourceStatement) (idx : Nat) (res : BackupResult)
    (pre : List Char) (c : Char)
    (he : eligible s.kind = true) (hrest : rest ≠ [])
    (hok : (analyzeFrom cat (s :: rest) idx).head? = some (.ok res))
    (hsplit : s.text.data = pre ++ [c]) (hc : c ≠ '\n') :
    res.endPosition = posOfIndex s.startPos s.text.data (s.text.data.length - 1) := by
  obtain ⟨r, hr, hres⟩ := head_ok_shape he hok
  have hne : rest.isEmpty = false := by
    cases rest with
    | nil => exact absurd rfl hrest
    | cons a l => rfl
  rw [hres, hne]
  show finalCharPos s.startPos s.text = _
  exact finalCharPos_concat s.startPos s.text pre c hsplit hc

/-- Claim C7 witness: the plain DELETE fixture as the first of two
statements — its end position is the position of its own semicolon,
(line 1, column 29). -/
theorem c7_end_position_nonlast_witness :
    resPlainDelete0.endPosition =
      posOfIndex stPlainDelete.startPos stPlainDelete.text.data
        (stPlainDelete.text.data.length - 1) :=
  c7_end_position_nonlast "db" stPlainDelete [stPlainUpdate] 0 resPlainDelete0
    "DELETE FROM test WHERE c1 = 1".data ';' (by decide) (by decide)
    (by decide) (by decide) (by decide)

/-- Claim C8: for the last statement of the stream, the produced record's
end position line is one past the line of the statement's own final
character, and its column is 0. -/
theorem c8_end_position_last (cat : String) (s : SourceStatement) (idx : Nat)
    (res : BackupResult) (pre : List Char) (c : Char)
    (he : eligible s.kind = true)
    (hok : (analyzeFrom cat [s] idx).head? = some (.ok res))
    (hsplit : s.text.data = pre ++ [c]) (hc : c ≠ '\n') :
    res.endPosition.line =
      (posOfIndex s.startPos s.text.data (s.text.data.length - 1)).line + 1 ∧
    res.endPosition.column = 0 := by
  obtain ⟨r, hr, hres⟩ := head_ok_shape he hok
  rw [hres]
  have hfin := finalCharPos_concat s.startPos s.text pre c hsplit hc
  constructor
  · show (finalCharPos s.startPos s.text).line + 1 = _
    rw [hfin]
  · rfl

/-- Claim C8 witness: the plain UPDATE fixture as the last statement — its
final character sits on line 2, so the end position is (line 3, column 0). -/
theorem c8_end_position_last_witness :
    resPlainUpdate1.endPosition.line =
      (posOfIndex stPlainUpdate.startPos stPlainUpdate.text.data
        (stPlainUpdate.text.data.length - 1)).line + 1 ∧
    resPlainUpdate1.endPosition.column = 0 :=
  c8_end_position_last "db" stPlainUpdate 1 resPlainUpdate1
    "UPDATE test SET test.c1 = 2 WHERE test.c1 = 1".data ';' (by decide)
    (by decide) (by decide) (by decide)

/-- The orchestrating loop equals a map of the per-statement processing over
the eligible statements with their allocated indices and is-last flags:
each outcome depends on its own statement alone. -/
theorem analyzeFrom_eq_map (cat : String) :
    ∀ (l : List SourceStatement) (idx : Nat),
      analyzeFrom cat l idx =
        (slotsFrom l idx).map (fun t => processOne cat t.1 t.2.1 t.2.2) := by
  intro l
  induction l with
  | nil => intro idx; rfl
  | cons s rest ih =>
    intro idx
    cases hk : eligible s.kind with
    | true => simp [analyzeFrom, slotsFrom, hk, ih]
    | false => simp [analyzeFrom, slotsFrom, hk, ih]

/-- Claim C10: when one eligible statement's target resolves to neither an
alias nor a table of its own FROM/JOIN clause, that statement's outcome in
the batch is the UnresolvedTargetError — returned in place, never silently
dropped — and every other eligible statement whose resolution succeeds
still produces its full BackupResult. -/
theorem c10_partial_success (cat : String) (stmts : List SourceStatement)
    (i : Nat) (s : SourceStatement) (j : Nat) (b : Bool)
    (hslot : (slotsFrom stmts 0)[i]? = some (s, j, b))
    (hbad : resolveTarget cat s = .error .unresolvedTarget) :
    (analyze cat stmts)[i]? = some (.error .unresolvedTarget) ∧
    ∀ (k : Nat) (s2 : SourceStatement) (j2 : Nat) (b2 : Bool)
      (r2 : ResolvedMutationTarget), k ≠ i →
      (slotsFrom stmts 0)[k]? = some (s2, j2, b2) →
      resolveTarget cat s2 = .ok r2 →
      (analyze cat stmts)[k]? = some (.ok (mkResult s2 r2 j2 b2)) := by
  have hmap := analyzeFrom_eq_map cat stmts 0
  constructor
  · rw [analyze, hmap, List.getElem?_map, hslot, Option.map_some']
    rw [processOne_of_error hbad]
  · intro k s2 j2 b2 r2 _ hk2 hr2
    rw [analyze, hmap, List.getElem?_map, hk2, Option.map_some']
    rw [processOne_of_ok hr2]

/-- Claim C10 witness: a two-statement batch whose first statement has a
dangling target — the first outcome is the error, the second still gets its
backup record with index 1. -/
theorem c10_partial_success_witness :
    (analyze "db" [stDangling, stPlainUpdate])[0]? =
      some (.error .unresolvedTarget) ∧
    (analyze "db" [stDangling, stPlainUpdate])[1]? =
      some (.ok (mkResult stPlainUpdate resolvedPlainUpdate 1 true)) := by
  have h := c10_partial_success "db" [stDangling, stPlainUpdate] 0 stDangling
    0 false (by decide) (by decide)
  exact ⟨h.1, h.2 1 stPlainUpdate 1 true resolvedPlainUpdate (by decide)
    (by decide) (by decide)⟩

end TsqlBackup
